import Mathlib

/-!
Shallow embedding of the priority-scoring and result-normalization pipeline of
`src/backend/scoring.py`, the response model of `src/backend/main.py`, and the
charter handler of `src/frontend/app.py`.

Modelling conventions:
* Python/JSON values are modelled by the inductive type `JVal`.  JSON numbers
  with a fractional part (Python floats) carry a rational payload: every JSON
  number is an exact decimal, so no rounding is lost (JSON has no NaN/Infinity).
* Python dicts are association lists with unique keys; `dict.get` is
  `lookupKey`/`Option.getD`.
* The external `json.loads` of the standard library is passed as an explicit
  oracle `loads : String → Except Unit JVal`: the normalizer consumes text only
  through it, and its outcome on a payload is all the code observes.
* HTTP transport (`requests.post`) is an explicit `TransportOutcome` input:
  either a raised network/timeout exception or a response with a status code
  and a decoded JSON body.
* Python exceptions that propagate out of `score_project_ai` become the error
  side of `Except`.
-/

/-- A JSON/Python value as produced by `resp.json()` / `json.loads`. -/
inductive JVal where
  | null
  | bool (b : Bool)
  | int (n : Int)
  | float (q : ℚ)
  | str (s : String)
  | arr (xs : List JVal)
  | obj (fields : List (String × JVal))

/-- Python `dict.get(k)` on an association list (dicts have unique keys, so
taking the first match is faithful). -/
def lookupKey (m : List (String × JVal)) (k : String) : Option JVal :=
  (m.find? (fun p => p.1 == k)).map (fun p => p.2)

/-- Truncation toward zero of a rational, which is what Python `int(float)`
does (`int(3.9) == 3`, `int(-3.9) == -3`). -/
def ratTrunc (q : ℚ) : Int :=
  Int.tdiv q.num (q.den : Int)

/-- Digit string with optional single underscores between digits, as accepted
by CPython `int(str)` in base 10 (no leading/trailing/doubled underscore). -/
def parseDigitsU : List Char → Option Nat
  | [] => none
  | c :: cs => if c.isDigit then go (c.toNat - 48) cs else none
where
  go : Nat → List Char → Option Nat
    | acc, [] => some acc
    | acc, '_' :: c :: cs =>
        if c.isDigit then go (acc * 10 + (c.toNat - 48)) cs else none
    | _, '_' :: [] => none
    | acc, c :: cs =>
        if c.isDigit then go (acc * 10 + (c.toNat - 48)) cs else none

/-- ASCII whitespace stripped by Python `int(str)` (`str.strip`). -/
def pyIsSpace (c : Char) : Bool :=
  c == ' ' || c == '\t' || c == '\n' || c == '\r' || c == '\x0b' || c == '\x0c'

/-- Python `str.strip()` on a character list. -/
def pyStrip (cs : List Char) : List Char :=
  ((cs.dropWhile pyIsSpace).reverse.dropWhile pyIsSpace).reverse

/-- Python `int(s)` for a string: strip surrounding whitespace, optional sign,
then a base-10 digit string (ASCII subset of CPython's grammar). A numeric
string with a fractional part (such as "3.5") is rejected. -/
def pyIntOfString (s : String) : Option Int :=
  match pyStrip s.toList with
  | '+' :: cs => (parseDigitsU cs).map Int.ofNat
  | '-' :: cs => (parseDigitsU cs).map (fun n => -(Int.ofNat n))
  | cs => (parseDigitsU cs).map Int.ofNat

/-- Python `int(x)`: succeeds on bools, ints, floats (truncating toward zero)
and integer-shaped strings; raises (`.error`) on `None`, lists, dicts and
non-numeric text — exactly the cases `to_int` in `scoring.py` catches. -/
def pyInt : JVal → Except Unit Int
  | .bool b => .ok (if b then 1 else 0)
  | .int n => .ok n
  | .float q => .ok (ratTrunc q)
  | .str s =>
      match pyIntOfString s with
      | some n => .ok n
      | none => .error ()
  | _ => .error ()

/-- `to_int` from `scoring.py`: `int(x)` with any exception giving the default
0 (the function is only ever called with the default). -/
def to_int (x : JVal) : Int :=
  match pyInt x with
  | .ok n => n
  | .error _ => 0

/-- The dict literal returned by `score_project_ai` (lines 99–126 of
`scoring.py`), built from the decoded mapping `raw`: six `to_int`-coerced
sub-scores, the derived `priority_score`, and the pass-through fields
`rationale` (default ""), `lenses` (default []), `recommended_priority`
(default 1). -/
def score_result_dict (raw : List (String × JVal)) : List (String × JVal) :=
  let bi := to_int ((lookupKey raw "bi").getD (.int 0))
  let risk := to_int ((lookupKey raw "risk").getD (.int 0))
  let align := to_int ((lookupKey raw "align").getD (.int 0))
  let urgency := to_int ((lookupKey raw "urgency").getD (.int 0))
  let complexity := to_int ((lookupKey raw "complexity").getD (.int 0))
  let cost := to_int ((lookupKey raw "cost").getD (.int 0))
  let priority_score := bi + risk + align + urgency + (6 - complexity) + (6 - cost)
  [("bi", .int bi),
   ("risk", .int risk),
   ("align", .int align),
   ("urgency", .int urgency),
   ("complexity", .int complexity),
   ("cost", .int cost),
   ("priority_score", .int priority_score),
   ("rationale", (lookupKey raw "rationale").getD (.str "")),
   ("lenses", (lookupKey raw "lenses").getD (.arr [])),
   ("recommended_priority", (lookupKey raw "recommended_priority").getD (.int 1))]

/-- A network-level failure of `requests.post`: the connection/timeout
subclasses of `requests.RequestException` that do not carry a status code. -/
inductive NetExc where
  | timeout
  | connectionError

/-- A `requests.RequestException` as caught in `_call_ollama`: either a
network/timeout failure or the `HTTPError` produced by
`resp.raise_for_status()` for a 4xx/5xx status. -/
inductive ReqExc where
  | net (e : NetExc)
  | httpError (status : Nat)

/-- The `RuntimeError` raised by `_call_ollama`
(`"Error calling Ollama at ..."`): it carries the configured endpoint
`OLLAMA_URL` and the underlying `requests` exception. -/
structure RuntimeErrorInfo where
  endpoint : String
  cause : ReqExc

/-- Outcome of the single `requests.post` call: either a raised
network/timeout exception, or a response with a status code and its decoded
JSON body (`resp.json()`). -/
inductive TransportOutcome where
  | exc (e : NetExc)
  | response (status : Nat) (body : JVal)

/-- `resp.raise_for_status()`: raises `HTTPError` exactly for 4xx/5xx status
codes. -/
def raise_for_status (status : Nat) : Except ReqExc Unit :=
  if 400 ≤ status ∧ status < 600 then .error (.httpError status) else .ok ()

/-- `_call_ollama` from `scoring.py`: a single request attempt; any
`requests.RequestException` (network failure or `raise_for_status`) is
re-raised as a `RuntimeError` carrying `OLLAMA_URL` and the cause; on success
the parsed JSON body is returned. -/
def call_ollama (ollama_url : String) (t : TransportOutcome) :
    Except RuntimeErrorInfo JVal :=
  match t with
  | .exc e => .error ⟨ollama_url, .net e⟩
  | .response status body =>
      match raise_for_status status with
      | .error exc => .error ⟨ollama_url, exc⟩
      | .ok _ => .ok body

/-- An exception escaping `score_project_ai` / `generate_project_charter_ai`. -/
inductive ScoreErr where
  /-- the `RuntimeError` raised by `_call_ollama` -/
  | runtime (e : RuntimeErrorInfo)
  /-- `json.JSONDecodeError` from `json.loads` on undecodable text -/
  | jsonDecode
  /-- `TypeError` from `json.loads` applied to a non-text, non-dict value -/
  | typeErr
  /-- `AttributeError` from calling `.get` on a non-dict -/
  | attrErr

/-- Lines 90–91 / 208–209 of `scoring.py`:
`message = data.get("message", ...)` with dict default, then
`content = message.get("content", "")`.
Calling `.get` on a non-dict raises `AttributeError`. -/
def extract_content (data : JVal) : Except ScoreErr JVal :=
  match data with
  | .obj d =>
      match (lookupKey d "message").getD (.obj []) with
      | .obj mm => .ok ((lookupKey mm "content").getD (.str ""))
      | _ => .error .attrErr
  | _ => .error .attrErr

/-- Lines 93–97 of `scoring.py`: an already-parsed dict is used as `raw`
directly; text goes through `json.loads` (the `loads` oracle); a text payload
decoding to a non-mapping makes the subsequent `raw.get` raise
`AttributeError`; `json.loads` on a non-text value raises `TypeError`. -/
def decode_raw (loads : String → Except Unit JVal) (content : JVal) :
    Except ScoreErr (List (String × JVal)) :=
  match content with
  | .obj m => .ok m
  | .str s =>
      match loads s with
      | .ok (.obj m) => .ok m
      | .ok _ => .error .attrErr
      | .error _ => .error .jsonDecode
  | _ => .error .typeErr

/-- `score_project_ai` from `scoring.py`, with the provider transport and the
`json.loads` library passed explicitly: call Ollama, extract
`message.content`, decode the raw mapping, then build the result dict. -/
def score_project_ai (ollama_url : String) (loads : String → Except Unit JVal)
    (t : TransportOutcome) : Except ScoreErr (List (String × JVal)) :=
  match call_ollama ollama_url t with
  | .error e => .error (.runtime e)
  | .ok data =>
      match extract_content data with
      | .error e => .error e
      | .ok content => (decode_raw loads content).map score_result_dict

/-- A transport outcome in which the provider answered 200 with the chat body
`message.content = c` — the shape Ollama returns on success. -/
def mkTransport (c : JVal) : TransportOutcome :=
  .response 200 (.obj [("message", .obj [("content", c)])])

mutual

/-- Python `repr` of a value, as used by `str()` on containers. The numeric
rendering of floats and the escaping inside string reprs are approximated
(the charter path only ever inspects whether the content is text; non-text
content merely passes through `str()`). -/
def pyRepr : JVal → String
  | .null => "None"
  | .bool true => "True"
  | .bool false => "False"
  | .int n => toString n
  | .float q => toString q
  | .str s => "\x27" ++ s ++ "\x27"
  | .arr xs => "[" ++ pyReprList xs ++ "]"
  | .obj kvs => "\x7b" ++ pyReprObj kvs ++ "\x7d"

/-- Comma-separated reprs of a list's elements. -/
def pyReprList : List JVal → String
  | [] => ""
  | [v] => pyRepr v
  | v :: vs => pyRepr v ++ ", " ++ pyReprList vs

/-- Comma-separated `key: value` reprs of a dict's entries. -/
def pyReprObj : List (String × JVal) → String
  | [] => ""
  | [(k, v)] => "\x27" ++ k ++ "\x27: " ++ pyRepr v
  | (k, v) :: kvs => "\x27" ++ k ++ "\x27: " ++ pyRepr v ++ ", " ++ pyReprObj kvs

end

/-- Python `str(x)`: identity on text, `repr`-style rendering otherwise. -/
def pyStr : JVal → String
  | .str s => s
  | v => pyRepr v

/-- `generate_project_charter_ai` from `scoring.py` (lines 197–215): same
`_call_ollama` + `message.content` extraction as the scoring path, then the
content is returned as-is if it is text, else converted with `str()`. -/
def generate_project_charter_ai (ollama_url : String) (t : TransportOutcome) :
    Except ScoreErr String :=
  match call_ollama ollama_url t with
  | .error e => .error (.runtime e)
  | .ok data =>
      match extract_content data with
      | .error e => .error e
      | .ok content => .ok (pyStr content)

/-- The `/ai/project_charter` endpoint of `main.py`: wraps the generated
charter in `CharterResponse(charter_markdown=charter)`. -/
def charter_endpoint (ollama_url : String) (t : TransportOutcome) :
    Except ScoreErr (List (String × JVal)) :=
  (generate_project_charter_ai ollama_url t).map
    (fun s => [("charter_markdown", .str s)])

/-- Python truthiness (`if charter_md:`). -/
def pyTruthy : JVal → Bool
  | .null => false
  | .bool b => b
  | .int n => n != 0
  | .float q => q != 0
  | .str s => s != ""
  | .arr xs => !xs.isEmpty
  | .obj kvs => !kvs.isEmpty

/-- What the frontend shows after a successful charter response. -/
inductive CharterDisplay where
  /-- the charter markdown is stored and previewed -/
  | preview (md : JVal)
  /-- `st.warning("No charter content returned.")` -/
  | warnNoContent

/-- The charter branch of `src/frontend/app.py` (lines 257–266):
`charter_md = charter_resp.get("charter_markdown", "")`; a truthy value is
previewed, otherwise the "No charter content returned." warning is shown. -/
def charter_handler (resp : List (String × JVal)) : CharterDisplay :=
  let charter_md := (lookupKey resp "charter_markdown").getD (.str "")
  if pyTruthy charter_md then .preview charter_md else .warnNoContent

/-- The `ScoreResponse` pydantic model of `main.py`: ten typed fields, with
`lenses` defaulting to the empty list when absent. -/
structure ScoreResponse where
  bi : Int
  risk : Int
  align : Int
  urgency : Int
  complexity : Int
  cost : Int
  priority_score : Int
  rationale : String
  lenses : List String
  recommended_priority : Int

/-- An `int`-typed pydantic field under the default (lax) validation mode
used by `ScoreResponse(**result)`: accepts an exact integer; an integral
float, coerced to its integer value (JSON floats are exact rationals here,
so integrality is denominator 1; pydantic rejects 3.5 and there is no
NaN/Infinity in JSON); or integer-shaped text, whose exact grammar is
pydantic-core's string-to-int parser, abstracted as the `strInt` oracle.
Booleans are explicitly rejected by pydantic for `int` fields, as are null,
lists and dicts. The coerced integer becomes the validated field value. -/
def laxFieldInt? (strInt : String → Option Int) (o : Option JVal) : Option Int :=
  match o with
  | some (.int n) => some n
  | some (.float q) => if q.den = 1 then some q.num else none
  | some (.str s) => strInt s
  | _ => none

/-- A `str`-typed pydantic field: requires a text value to be present
(within JSON values, lax pydantic v2 accepts exactly text for `str`). -/
def fieldStr? (o : Option JVal) : Option String :=
  match o with
  | some (.str s) => some s
  | _ => none

/-- The `List[str]`-typed `lenses` field with default `[]`: absent is fine,
a present value must be a list of texts. -/
def fieldStrList? (o : Option JVal) : Option (List String) :=
  match o with
  | none => some []
  | some (.arr xs) => xs.mapM (fun v => match v with | .str s => some s | _ => none)
  | some _ => none

/-- Validation performed by `ScoreResponse(**result)` in `main.py` under
pydantic's default (lax) mode, as a shape-and-coercion check on the result
dict; `strInt` abstracts pydantic-core's string-to-int parser, exactly as
the `loads` oracle abstracts `json.loads`. -/
def scoreResponseOfDict? (strInt : String → Option Int)
    (r : List (String × JVal)) : Option ScoreResponse :=
  match laxFieldInt? strInt (lookupKey r "bi"),
      laxFieldInt? strInt (lookupKey r "risk"),
      laxFieldInt? strInt (lookupKey r "align"),
      laxFieldInt? strInt (lookupKey r "urgency"),
      laxFieldInt? strInt (lookupKey r "complexity"),
      laxFieldInt? strInt (lookupKey r "cost"),
      laxFieldInt? strInt (lookupKey r "priority_score"),
      fieldStr? (lookupKey r "rationale"),
      fieldStrList? (lookupKey r "lenses"),
      laxFieldInt? strInt (lookupKey r "recommended_priority") with
  | some bi, some risk, some align, some urgency, some complexity, some cost,
      some ps, some rat, some ls, some rp =>
      some ⟨bi, risk, align, urgency, complexity, cost, ps, rat, ls, rp⟩
  | _, _, _, _, _, _, _, _, _, _ => none

/-- If `int(v)` raises, `to_int` gives the default 0. -/
lemma to_int_eq_zero (v : JVal) (h : pyInt v = .error ()) : to_int v = 0 := by
  unfold to_int
  rw [h]

/-- Every `.ok` result of the scoring path is the result dict built from some
decoded mapping. -/
lemma score_ok_inv (url : String) (loads : String → Except Unit JVal)
    (t : TransportOutcome) (r : List (String × JVal))
    (h : score_project_ai url loads t = .ok r) :
    ∃ m, r = score_result_dict m := by
  cases hco : call_ollama url t with
  | error e =>
    simp only [score_project_ai, hco] at h
    exact Except.noConfusion h
  | ok data =>
    simp only [score_project_ai, hco] at h
    cases hec : extract_content data with
    | error e =>
      simp only [hec] at h
      exact Except.noConfusion h
    | ok content =>
      simp only [hec] at h
      cases hdr : decode_raw loads content with
      | error e =>
        simp only [hdr, Except.map] at h
        exact Except.noConfusion h
      | ok m =>
        simp only [hdr, Except.map] at h
        exact ⟨m, (Except.ok.inj h).symm⟩

/-- C4: the priority computation is total on integers and applies the formula
`bi + risk + align + urgency + (6 - complexity) + (6 - cost)` literally, with
no clamping: all-fives with complexity = cost = 1 yields 30, and all-ones
with `cost` absent (defaulting to 0) yields 15. -/
theorem priority_formula_no_clamping :
    (∀ bi risk align urgency complexity cost : Int,
      lookupKey (score_result_dict
          [("bi", .int bi), ("risk", .int risk), ("align", .int align),
           ("urgency", .int urgency), ("complexity", .int complexity),
           ("cost", .int cost)]) "priority_score"
        = some (.int (bi + risk + align + urgency + (6 - complexity) + (6 - cost))))
    ∧ lookupKey (score_result_dict
          [("bi", .int 5), ("risk", .int 5), ("align", .int 5),
           ("urgency", .int 5), ("complexity", .int 1), ("cost", .int 1)])
        "priority_score" = some (.int 30)
    ∧ lookupKey (score_result_dict
          [("bi", .int 1), ("risk", .int 1), ("align", .int 1),
           ("urgency", .int 1), ("complexity", .int 1)])
        "priority_score" = some (.int 15) := by
  refine ⟨fun bi risk align urgency complexity cost => rfl, rfl, rfl⟩

/-- C10: sub-score coercion accepts everything Python `int()` accepts —
floats truncate toward zero (3.9 becomes 3, -3.9 becomes -3), `true` becomes
1, the text "3" becomes 3 — while the numeric-looking text "3.5" fails
coercion (it is an error for `int()`, hence defaults to 0), so coercion
failure is strictly narrower than "not an integer". -/
theorem to_int_python_coercion :
    to_int (.float (mkRat 39 10)) = 3
    ∧ to_int (.float (mkRat (-39) 10)) = -3
    ∧ to_int (.bool true) = 1
    ∧ to_int (.str "3") = 3
    ∧ to_int (.str "3.5") = 0
    ∧ pyInt (.str "3.5") = .error ()
    ∧ pyInt (.float (mkRat 39 10)) = .ok 3 := by
  refine ⟨by decide, by decide, rfl, by decide, by decide, rfl, ?_⟩
  show Except.ok (ratTrunc (mkRat 39 10)) = Except.ok 3
  congr 1

/-- C2: a text payload that `json.loads` cannot decode makes the scoring path
fail with the decode error propagated to the caller — it never produces a
result dict. -/
theorem malformed_content_is_error (url : String)
    (loads : String → Except Unit JVal) (s : String)
    (h : loads s = .error ()) :
    score_project_ai url loads (mkTransport (.str s)) = .error .jsonDecode
    ∧ ∀ r, score_project_ai url loads (mkTransport (.str s)) ≠ .ok r := by
  have hdec : decode_raw loads (.str s) = .error .jsonDecode := by
    simp only [decode_raw, h]
  have hred : score_project_ai url loads (mkTransport (.str s))
      = (decode_raw loads (.str s)).map score_result_dict := rfl
  constructor
  · rw [hred, hdec]
    rfl
  · intro r hc
    rw [hred, hdec] at hc
    exact Except.noConfusion hc

/-- C2 witness: a concrete prose payload. -/
theorem malformed_content_is_error_witness :
    score_project_ai "http://localhost:11434" (fun _ => .error ())
        (mkTransport (.str "plain prose, no JSON here")) = .error .jsonDecode
    ∧ ∀ r, score_project_ai "http://localhost:11434" (fun _ => .error ())
        (mkTransport (.str "plain prose, no JSON here")) ≠ .ok r :=
  malformed_content_is_error "http://localhost:11434" (fun _ => .error ())
    "plain prose, no JSON here" rfl

/-- C8: normalization only depends on the decoded mapping, so the result for
an already-parsed mapping `m` equals the result for any text payload (in
particular the JSON text encoding of `m`) that `json.loads` decodes to `m`. -/
theorem parsed_vs_serialized_equal (url : String)
    (loads : String → Except Unit JVal) (m : List (String × JVal)) (s : String)
    (h : loads s = .ok (.obj m)) :
    score_project_ai url loads (mkTransport (.obj m))
      = score_project_ai url loads (mkTransport (.str s))
    ∧ score_project_ai url loads (mkTransport (.str s))
      = .ok (score_result_dict m) := by
  have h2 : score_project_ai url loads (mkTransport (.str s))
      = .ok (score_result_dict m) := by
    have hred : score_project_ai url loads (mkTransport (.str s))
        = (decode_raw loads (.str s)).map score_result_dict := rfl
    have hdec : decode_raw loads (.str s) = .ok m := by
      simp only [decode_raw, h]
    rw [hred, hdec]
    rfl
  refine ⟨?_, h2⟩
  rw [h2]
  rfl

/-- C8 witness: the empty mapping and a text that decodes to it. -/
theorem parsed_vs_serialized_equal_witness :
    score_project_ai "http://localhost:11434" (fun _ => .ok (.obj []))
        (mkTransport (.obj []))
      = score_project_ai "http://localhost:11434" (fun _ => .ok (.obj []))
        (mkTransport (.str "\x7b\x7d"))
    ∧ score_project_ai "http://localhost:11434" (fun _ => .ok (.obj []))
        (mkTransport (.str "\x7b\x7d"))
      = .ok (score_result_dict []) :=
  parsed_vs_serialized_equal "http://localhost:11434" (fun _ => .ok (.obj []))
    [] "\x7b\x7d" rfl

/-- C1: every result dict the scoring path returns has six integer sub-score
fields and a `priority_score` field equal to
`bi + risk + align + urgency + (6 - complexity) + (6 - cost)` over those same
fields; moreover `priority_score` is independent of the model-supplied
`recommended_priority` entry of the decoded mapping. -/
theorem priorityScore_is_formula (url : String)
    (loads : String → Except Unit JVal) (t : TransportOutcome)
    (r : List (String × JVal)) (h : score_project_ai url loads t = .ok r) :
    (∃ bi risk align urgency complexity cost : Int,
      lookupKey r "bi" = some (.int bi)
      ∧ lookupKey r "risk" = some (.int risk)
      ∧ lookupKey r "align" = some (.int align)
      ∧ lookupKey r "urgency" = some (.int urgency)
      ∧ lookupKey r "complexity" = some (.int complexity)
      ∧ lookupKey r "cost" = some (.int cost)
      ∧ lookupKey r "priority_score"
          = some (.int (bi + risk + align + urgency + (6 - complexity) + (6 - cost))))
    ∧ (∀ (m : List (String × JVal)) (v : JVal),
        lookupKey (score_result_dict (("recommended_priority", v) :: m)) "priority_score"
          = lookupKey (score_result_dict m) "priority_score") := by
  obtain ⟨m, rfl⟩ := score_ok_inv url loads t r h
  exact ⟨⟨_, _, _, _, _, _, rfl, rfl, rfl, rfl, rfl, rfl, rfl⟩, fun m v => rfl⟩

/-- C1 witness: the scoring path applied to an empty decoded mapping. -/
theorem priorityScore_is_formula_witness :
    (∃ bi risk align urgency complexity cost : Int,
      lookupKey (score_result_dict []) "bi" = some (.int bi)
      ∧ lookupKey (score_result_dict []) "risk" = some (.int risk)
      ∧ lookupKey (score_result_dict []) "align" = some (.int align)
      ∧ lookupKey (score_result_dict []) "urgency" = some (.int urgency)
      ∧ lookupKey (score_result_dict []) "complexity" = some (.int complexity)
      ∧ lookupKey (score_result_dict []) "cost" = some (.int cost)
      ∧ lookupKey (score_result_dict []) "priority_score"
          = some (.int (bi + risk + align + urgency + (6 - complexity) + (6 - cost))))
    ∧ (∀ (m : List (String × JVal)) (v : JVal),
        lookupKey (score_result_dict (("recommended_priority", v) :: m)) "priority_score"
          = lookupKey (score_result_dict m) "priority_score") :=
  priorityScore_is_formula "http://localhost:11434" (fun _ => .error ())
    (mkTransport (.obj [])) (score_result_dict []) rfl

/-- C3: when one of the six sub-score keys is absent from the decoded
mapping, or its value makes `int()` raise, the corresponding result field is
0 and the scoring call still succeeds. -/
theorem uncoercible_subscore_defaults_zero (m : List (String × JVal))
    (k : String)
    (hk : k = "bi" ∨ k = "risk" ∨ k = "align" ∨ k = "urgency"
      ∨ k = "complexity" ∨ k = "cost")
    (hfail : lookupKey m k = none
      ∨ ∃ v, lookupKey m k = some v ∧ pyInt v = .error ()) :
    lookupKey (score_result_dict m) k = some (.int 0)
    ∧ ∀ url loads,
        score_project_ai url loads (mkTransport (.obj m))
          = .ok (score_result_dict m) := by
  refine ⟨?_, fun url loads => rfl⟩
  have hz : to_int ((lookupKey m k).getD (.int 0)) = 0 := by
    rcases hfail with hnone | ⟨v, hv, hpe⟩
    · rw [hnone]
      rfl
    · rw [hv]
      exact to_int_eq_zero v hpe
  rcases hk with rfl | rfl | rfl | rfl | rfl | rfl <;>
    exact congrArg (fun z => some (JVal.int z)) hz

/-- C3 witness: a mapping whose `bi` value is non-numeric text. -/
theorem uncoercible_subscore_defaults_zero_witness :
    lookupKey (score_result_dict [("bi", JVal.str "not a number")]) "bi"
      = some (.int 0)
    ∧ ∀ url loads,
        score_project_ai url loads
            (mkTransport (.obj [("bi", JVal.str "not a number")]))
          = .ok (score_result_dict [("bi", JVal.str "not a number")]) :=
  uncoercible_subscore_defaults_zero [("bi", JVal.str "not a number")] "bi"
    (Or.inl rfl) (Or.inr ⟨JVal.str "not a number", rfl, rfl⟩)

/-- C5 counterexample: a decoded mapping whose `rationale` is the integer 7
and whose `lenses` is the text "Audit" produces a result carrying those
values unchanged — not the empty string / empty list the claim requires for
non-text and non-list values. -/
theorem rationale_lenses_passthrough_cex :
    lookupKey (score_result_dict [("rationale", JVal.int 7), ("lenses", JVal.str "Audit")])
      "rationale" = some (JVal.int 7)
    ∧ lookupKey (score_result_dict [("rationale", JVal.int 7), ("lenses", JVal.str "Audit")])
      "rationale" ≠ some (JVal.str "")
    ∧ lookupKey (score_result_dict [("rationale", JVal.int 7), ("lenses", JVal.str "Audit")])
      "lenses" = some (JVal.str "Audit")
    ∧ lookupKey (score_result_dict [("rationale", JVal.int 7), ("lenses", JVal.str "Audit")])
      "lenses" ≠ some (JVal.arr []) := by
  refine ⟨rfl, fun hc => ?_, rfl, fun hc => ?_⟩
  · exact JVal.noConfusion (Option.some.inj hc)
  · exact JVal.noConfusion (Option.some.inj hc)

/-- C5 amended: `rationale` defaults to the empty string and `lenses` to the
empty list only when the key is absent from the decoded mapping; any present
value — text or not, list or not — is passed through unchanged. -/
theorem rationale_lenses_default_only_when_absent (m : List (String × JVal)) :
    (lookupKey m "rationale" = none →
      lookupKey (score_result_dict m) "rationale" = some (.str ""))
    ∧ (∀ v, lookupKey m "rationale" = some v →
        lookupKey (score_result_dict m) "rationale" = some v)
    ∧ (lookupKey m "lenses" = none →
      lookupKey (score_result_dict m) "lenses" = some (.arr []))
    ∧ (∀ v, lookupKey m "lenses" = some v →
        lookupKey (score_result_dict m) "lenses" = some v) := by
  refine ⟨fun h => ?_, fun v h => ?_, fun h => ?_, fun v h => ?_⟩
  · exact congrArg (fun o => some (o.getD (JVal.str ""))) h
  · exact congrArg (fun o => some (o.getD (JVal.str ""))) h
  · exact congrArg (fun o => some (o.getD (JVal.arr []))) h
  · exact congrArg (fun o => some (o.getD (JVal.arr []))) h

/-- C5 amended witness: an absent `rationale` defaults, a present non-text
one passes through. -/
theorem rationale_lenses_default_only_when_absent_witness :
    lookupKey (score_result_dict []) "rationale" = some (JVal.str "")
    ∧ lookupKey (score_result_dict [("rationale", JVal.int 7)]) "rationale"
        = some (JVal.int 7)
    ∧ lookupKey (score_result_dict []) "lenses" = some (JVal.arr []) :=
  ⟨(rationale_lenses_default_only_when_absent []).1 rfl,
   (rationale_lenses_default_only_when_absent [("rationale", JVal.int 7)]).2.1
     (JVal.int 7) rfl,
   (rationale_lenses_default_only_when_absent []).2.2.1 rfl⟩

/-- C6: a network/timeout failure of the provider call makes the scoring path
raise the `_call_ollama` `RuntimeError` whose cause is the network exception;
a 4xx/5xx status raises the one whose cause is the `HTTPError` with that
status; the two error values are distinct, each carries the endpoint and the
underlying cause, and in either case no result dict is produced. -/
theorem provider_failure_raises (url : String)
    (loads : String → Except Unit JVal) (e : NetExc) (status : Nat)
    (body : JVal) (h4 : 400 ≤ status) (h6 : status < 600) :
    score_project_ai url loads (.exc e) = .error (.runtime ⟨url, .net e⟩)
    ∧ score_project_ai url loads (.response status body)
        = .error (.runtime ⟨url, .httpError status⟩)
    ∧ ScoreErr.runtime ⟨url, .net e⟩ ≠ ScoreErr.runtime ⟨url, .httpError status⟩
    ∧ (∀ r, score_project_ai url loads (.exc e) ≠ .ok r)
    ∧ (∀ r, score_project_ai url loads (.response status body) ≠ .ok r) := by
  have hrs : raise_for_status status = .error (.httpError status) := by
    unfold raise_for_status
    rw [if_pos ⟨h4, h6⟩]
  have hco : call_ollama url (.response status body)
      = .error ⟨url, .httpError status⟩ := by
    simp only [call_ollama, hrs]
  have h2 : score_project_ai url loads (.response status body)
      = .error (.runtime ⟨url, .httpError status⟩) := by
    simp only [score_project_ai, hco]
  refine ⟨rfl, h2, ?_, fun r hc => Except.noConfusion hc, fun r hc => ?_⟩
  · intro hEq
    injection hEq with h1
    injection h1 with hEnd hCause
    exact ReqExc.noConfusion hCause
  · rw [h2] at hc
    exact Except.noConfusion hc

/-- C6 witness: a timeout and a 500 response at the default endpoint. -/
theorem provider_failure_raises_witness :
    score_project_ai "http://localhost:11434" (fun _ => .error ()) (.exc .timeout)
        = .error (.runtime ⟨"http://localhost:11434", .net .timeout⟩)
    ∧ score_project_ai "http://localhost:11434" (fun _ => .error ())
        (.response 500 .null)
        = .error (.runtime ⟨"http://localhost:11434", .httpError 500⟩)
    ∧ ScoreErr.runtime ⟨"http://localhost:11434", .net .timeout⟩
        ≠ ScoreErr.runtime ⟨"http://localhost:11434", .httpError 500⟩
    ∧ (∀ r, score_project_ai "http://localhost:11434" (fun _ => .error ())
        (.exc .timeout) ≠ .ok r)
    ∧ (∀ r, score_project_ai "http://localhost:11434" (fun _ => .error ())
        (.response 500 .null) ≠ .ok r) :=
  provider_failure_raises "http://localhost:11434" (fun _ => .error ())
    .timeout 500 .null (by decide) (by decide)

/-- C7: non-empty charter text from the provider reaches the frontend
unmodified and is previewed; empty charter text produces the explicit
"No charter content returned." warning instead of a silent empty success. -/
theorem charter_roundtrip (url : String) (s : String) (h : s ≠ "") :
    (charter_endpoint url (mkTransport (.str s))).map charter_handler
      = .ok (.preview (.str s))
    ∧ (charter_endpoint url (mkTransport (.str ""))).map charter_handler
      = .ok CharterDisplay.warnNoContent := by
  constructor
  · have hb : (s == "") = false := beq_eq_false_iff_ne.mpr h
    have ht : pyTruthy (JVal.str s) = true := by
      show (!(s == "")) = true
      rw [hb]
      rfl
    have hred : (charter_endpoint url (mkTransport (.str s))).map charter_handler
        = .ok (if pyTruthy (JVal.str s) then CharterDisplay.preview (JVal.str s)
               else CharterDisplay.warnNoContent) := rfl
    rw [hred, ht]
    rfl
  · rfl

/-- C7 witness: a concrete markdown charter. -/
theorem charter_roundtrip_witness :
    (charter_endpoint "http://localhost:11434"
        (mkTransport (.str "# Project Charter"))).map charter_handler
      = .ok (.preview (.str "# Project Charter"))
    ∧ (charter_endpoint "http://localhost:11434"
        (mkTransport (.str ""))).map charter_handler
      = .ok CharterDisplay.warnNoContent :=
  charter_roundtrip "http://localhost:11434" "# Project Charter" (by decide)

/-- An accepted lax `int`-typed field was present, and its value coerces to
the integer stored in the validated model. -/
lemma laxFieldInt?_some {strInt : String → Option Int} {o : Option JVal}
    {n : Int} (h : laxFieldInt? strInt o = some n) :
    ∃ v, o = some v ∧ laxFieldInt? strInt (some v) = some n := by
  rcases o with _ | v
  · exact Option.noConfusion h
  · exact ⟨v, rfl, h⟩

/-- An accepted `str`-typed field was present with a text value. -/
lemma fieldStr?_some {o : Option JVal} {s : String} (h : fieldStr? o = some s) :
    o = some (.str s) := by
  rcases o with _ | v
  · exact Option.noConfusion h
  rcases v with _ | b | k | q | s0 | xs | kvs
  · exact Option.noConfusion h
  · exact Option.noConfusion h
  · exact Option.noConfusion h
  · exact Option.noConfusion h
  · exact congrArg (fun z => some (JVal.str z)) (Option.some.inj h)
  · exact Option.noConfusion h
  · exact Option.noConfusion h

/-- An accepted `List[str]`-typed field was absent (default) or a list. -/
lemma fieldStrList?_some {o : Option JVal} {ls : List String}
    (h : fieldStrList? o = some ls) :
    o = none ∨ ∃ xs, o = some (.arr xs) := by
  rcases o with _ | v
  · exact Or.inl rfl
  rcases v with _ | b | k | q | s | xs | kvs
  · exact Option.noConfusion h
  · exact Option.noConfusion h
  · exact Option.noConfusion h
  · exact Option.noConfusion h
  · exact Option.noConfusion h
  · exact Or.inr ⟨xs, rfl⟩
  · exact Option.noConfusion h

/-- C9: every result dict of a successful scoring call has exactly the ten
fields bi, risk, align, urgency, complexity, cost, priority_score, rationale,
lenses, recommended_priority in that order, with the first seven integers;
and the `ScoreResponse` API model (default lax pydantic validation, with
pydantic-core's string-to-int parser abstracted as the `strInt` oracle)
accepts a dict only if its `rationale` is text, its `lenses` is absent or a
list, and its `recommended_priority` is present and coercible to the integer
stored in the validated field. -/
theorem score_result_shape (m : List (String × JVal)) :
    (score_result_dict m).map Prod.fst
      = ["bi", "risk", "align", "urgency", "complexity", "cost",
         "priority_score", "rationale", "lenses", "recommended_priority"]
    ∧ (∃ n1 n2 n3 n4 n5 n6 n7 : Int, ∃ rv lv pv : JVal,
        score_result_dict m
          = [("bi", .int n1), ("risk", .int n2), ("align", .int n3),
             ("urgency", .int n4), ("complexity", .int n5), ("cost", .int n6),
             ("priority_score", .int n7), ("rationale", rv), ("lenses", lv),
             ("recommended_priority", pv)])
    ∧ (∀ (strInt : String → Option Int) (r : List (String × JVal))
        (resp : ScoreResponse),
        scoreResponseOfDict? strInt r = some resp →
        (∃ s, lookupKey r "rationale" = some (.str s))
        ∧ (lookupKey r "lenses" = none
            ∨ ∃ xs, lookupKey r "lenses" = some (.arr xs))
        ∧ (∃ v, lookupKey r "recommended_priority" = some v
            ∧ laxFieldInt? strInt (some v) = some resp.recommended_priority)) := by
  refine ⟨rfl, ⟨_, _, _, _, _, _, _, _, _, _, rfl⟩, ?_⟩
  intro strInt r resp h
  simp only [scoreResponseOfDict?] at h
  rcases h1 : laxFieldInt? strInt (lookupKey r "bi") with _ | bi
  · rw [h1] at h; exact Option.noConfusion h
  rw [h1] at h
  rcases h2 : laxFieldInt? strInt (lookupKey r "risk") with _ | risk
  · rw [h2] at h; exact Option.noConfusion h
  rw [h2] at h
  rcases h3 : laxFieldInt? strInt (lookupKey r "align") with _ | align
  · rw [h3] at h; exact Option.noConfusion h
  rw [h3] at h
  rcases h4 : laxFieldInt? strInt (lookupKey r "urgency") with _ | urgency
  · rw [h4] at h; exact Option.noConfusion h
  rw [h4] at h
  rcases h5 : laxFieldInt? strInt (lookupKey r "complexity") with _ | complexity
  · rw [h5] at h; exact Option.noConfusion h
  rw [h5] at h
  rcases h6 : laxFieldInt? strInt (lookupKey r "cost") with _ | cost
  · rw [h6] at h; exact Option.noConfusion h
  rw [h6] at h
  rcases h7 : laxFieldInt? strInt (lookupKey r "priority_score") with _ | ps
  · rw [h7] at h; exact Option.noConfusion h
  rw [h7] at h
  rcases h8 : fieldStr? (lookupKey r "rationale") with _ | rat
  · rw [h8] at h; exact Option.noConfusion h
  rw [h8] at h
  rcases h9 : fieldStrList? (lookupKey r "lenses") with _ | ls
  · rw [h9] at h; exact Option.noConfusion h
  rw [h9] at h
  rcases h10 : laxFieldInt? strInt (lookupKey r "recommended_priority") with _ | rp
  · rw [h10] at h; exact Option.noConfusion h
  rw [h10] at h
  obtain rfl := Option.some.inj h
  obtain ⟨v, hv, hc⟩ := laxFieldInt?_some h10
  exact ⟨⟨rat, fieldStr?_some h8⟩, fieldStrList?_some h9, v, hv, hc⟩

/-- C9 witness: the result dict of the empty decoded mapping is accepted by
the API model (a trivial parser oracle suffices, all its numeric fields
being exact integers), so the implication of the third conjunct fires on
it. -/
theorem score_result_shape_witness :
    (∃ s, lookupKey (score_result_dict []) "rationale" = some (JVal.str s))
    ∧ (lookupKey (score_result_dict []) "lenses" = none
        ∨ ∃ xs, lookupKey (score_result_dict []) "lenses" = some (JVal.arr xs))
    ∧ (∃ v, lookupKey (score_result_dict []) "recommended_priority" = some v
        ∧ laxFieldInt? (fun _ => none) (some v) = some 1) :=
  (score_result_shape []).2.2 (fun _ => none) (score_result_dict [])
    ⟨0, 0, 0, 0, 0, 0, 12, "", [], 1⟩ rfl
